import Mathlib

/-!
Shallow embedding of the soundflow-unity native facade
(src/Native/library.h, src/Native/library.cpp): a thin C-ABI layer over
the miniaudio engine.  Machine integers are modelled as Nat, C strings as
lists of bytes, pointers as Option values or explicit index handles, and
the allocator as an explicit success oracle plus a live-allocation
counter.  The miniaudio engine itself is a git submodule that is not
vendored in this repository; the few engine behaviors the facade relies
on (config initializers, the context-owned device cache of
ma_context_get_devices) are modelled from their documented contracts and
marked as such.
-/

namespace SoundFlow

/-- Result codes of the engine (ma_result): MA_SUCCESS, MA_OUT_OF_MEMORY,
MA_INVALID_ARGS, MA_OUT_OF_RANGE, or any other backend error code. -/
inductive MaResult where
  | success
  | outOfMemory
  | invalidArgs
  | outOfRange
  | errorCode (code : Int)
  deriving DecidableEq, Repr

/-- MA_MAX_DEVICE_NAME_LENGTH, the engine's device-name bound (255). -/
def MA_MAX_DEVICE_NAME_LENGTH : Nat := 255

/-- Model of C strncpy(dst, src, n) viewed as the n bytes it leaves in dst:
the first min(|src|, n) bytes of src, zero-padded up to n when src is
shorter (and with no terminator added when src has at least n bytes). -/
def strncpyBytes (src : List Nat) (n : Nat) : List Nat :=
  src.take n ++ List.replicate (n - src.length) 0

/-- The 256-byte name buffer of sf_device_info after the copy in
sf_get_devices (library.cpp lines 144-145 and 174-175):
strncpy(name, src, MA_MAX_DEVICE_NAME_LENGTH) followed by
name[MA_MAX_DEVICE_NAME_LENGTH] = 0. -/
def copyName (src : List Nat) : List Nat :=
  strncpyBytes src MA_MAX_DEVICE_NAME_LENGTH ++ [0]

/-- Reading a C string out of a buffer: the bytes before the first NUL. -/
def cstring (buf : List Nat) : List Nat :=
  buf.takeWhile (fun b => b != 0)

/-- One native data format entry (struct native_data_format, library.h
lines 12-17), and likewise the entries of the engine's
ma_device_info.nativeDataFormats. -/
structure NativeDataFormat where
  format : Nat
  channels : Nat
  sampleRate : Nat
  flags : Nat
  deriving DecidableEq, Repr

/-- The engine's ma_device_info as delivered by ma_context_get_devices:
an opaque device id (abstracted to the value stored in the ma_device_id
union), a name of at most 255 content bytes, the default flag, and the
native data formats (nativeDataFormatCount is the list length). -/
structure MaDeviceInfo where
  idValue : Nat
  name : List Nat
  isDefault : Bool
  nativeDataFormats : List NativeDataFormat
  deriving DecidableEq, Repr

/-- The id field of sf_device_info stores a pointer into the engine's
context-owned device array (library.cpp lines 143 and 173 take the
address of the backend entry's id).  Modelled as the direction plus the
index of that entry in the context cache. -/
structure DeviceIdPtr where
  playback : Bool
  index : Nat
  deriving DecidableEq, Repr

/-- struct sf_device_info (library.h lines 19-25).  nativeDataFormats is
none when nativeDataFormatCount = 0: the pointer field is then left
uninitialized by sf_get_devices (lines 149 and 179 guard the allocation
on a positive count). -/
structure SfDeviceInfo where
  id : DeviceIdPtr
  name : List Nat
  isDefault : Bool
  nativeDataFormatCount : Nat
  nativeDataFormats : Option (List NativeDataFormat)
  deriving DecidableEq, Repr

/-- The loop body of sf_get_devices (lines 140-168 and 170-198) for one
device: take the address of the backend id, strncpy the name and
terminate it, copy isDefault and nativeDataFormatCount, and when the
count is positive allocate a fresh array and copy every format entry
field by field. -/
def copyDeviceInfo (playback : Bool) (iDevice : Nat) (d : MaDeviceInfo) : SfDeviceInfo where
  id := ⟨playback, iDevice⟩
  name := copyName d.name
  isDefault := d.isDefault
  nativeDataFormatCount := d.nativeDataFormats.length
  nativeDataFormats :=
    if 0 < d.nativeDataFormats.length then some d.nativeDataFormats else none

/-- The whole copy loop: device at index start + k of the backend array
goes to slot start + k of the snapshot array. -/
def copyDevices (playback : Bool) (start : Nat) : List MaDeviceInfo → List SfDeviceInfo
  | [] => []
  | d :: rest => copyDeviceInfo playback start d :: copyDevices playback (start + 1) rest

/-- The backend context.  ma_context_get_devices hands out pointers into
device-info storage that the context owns and refreshes on every call
(miniaudio's documented contract; the engine source is a submodule not
vendored here).  Modelled as the cached playback and capture arrays. -/
structure MaContext where
  playbackCache : List MaDeviceInfo
  captureCache : List MaDeviceInfo
  deriving DecidableEq, Repr

/-- Dereference a stored sf_device_info.id pointer against the current
context cache: the ma_device_id value now at that slot, if the slot
still exists. -/
def derefDeviceId (ctx : MaContext) (p : DeviceIdPtr) : Option Nat :=
  ((if p.playback then ctx.playbackCache else ctx.captureCache).get? p.index).map
    (fun d => d.idValue)

/-- What the OS reports to ma_context_get_devices on one enumeration: a
result code and, on success, the playback and capture device lists. -/
structure BackendReport where
  result : MaResult
  playback : List MaDeviceInfo
  capture : List MaDeviceInfo
  deriving DecidableEq, Repr

/-- Success oracle for the two checked ma_malloc calls of sf_get_devices
(the outer playback and capture snapshot arrays, lines 120 and 130).
The nested nativeDataFormats allocations (lines 151 and 181) are not
null-checked by the code and are modelled as succeeding. -/
structure AllocOracle where
  playbackOuterOk : Bool
  captureOuterOk : Bool
  deriving DecidableEq, Repr

/-- Number of devices in a backend list for which sf_get_devices performs
a nested nativeDataFormats allocation (one per device with a positive
format count). -/
def nestedAllocCount (l : List MaDeviceInfo) : Nat :=
  (l.filter (fun d => 0 < d.nativeDataFormats.length)).length

/-- Everything observable about one sf_get_devices call: the context
afterwards, the returned ma_result, whether and what it wrote through
ppPlaybackDeviceInfos / ppCaptureDeviceInfos (outer none = pointer not
written; inner none = nullptr written), whether it wrote the two count
outputs, how many of its own ma_malloc allocations are still live at
return, and how many sf_free calls it issued on the context-owned
backend arrays (error paths, lines 123-124 and 133-134). -/
structure GetDevicesOutcome where
  context : MaContext
  result : MaResult
  playbackOut : Option (Option (List SfDeviceInfo))
  captureOut : Option (Option (List SfDeviceInfo))
  playbackCountOut : Option Nat
  captureCountOut : Option Nat
  liveAllocs : Nat
  backendFrees : Nat
  deriving DecidableEq, Repr

/-- sf_get_devices (library.cpp lines 100-204).  ma_context_get_devices
is modelled from its documented contract: on success it refreshes the
context-owned cache with the report and writes the two counts; its
result is returned verbatim on failure (line 112-114, which also
returns early on success when both counts are zero).  Then the two
outer snapshot arrays are allocated (null-checked, with the error paths
of lines 122-126 and 132-137), the copy loops run, and the output
pointers are written (lines 200-201). -/
def sf_get_devices (ctx : MaContext) (report : BackendReport) (oracle : AllocOracle) :
    GetDevicesOutcome :=
  if report.result ≠ MaResult.success then
    ⟨ctx, report.result, none, none, none, none, 0, 0⟩
  else
    let ctx2 : MaContext := ⟨report.playback, report.capture⟩
    let pc := report.playback.length
    let cc := report.capture.length
    if pc = 0 ∧ cc = 0 then
      ⟨ctx2, MaResult.success, none, none, some 0, some 0, 0, 0⟩
    else if 0 < pc ∧ oracle.playbackOuterOk = false then
      ⟨ctx2, MaResult.outOfMemory, none, none, some pc, some cc, 0, 2⟩
    else if 0 < cc ∧ oracle.captureOuterOk = false then
      ⟨ctx2, MaResult.outOfMemory, none, none, some pc, some cc, 0, 2⟩
    else
      ⟨ctx2, MaResult.success,
       some (if 0 < pc then some (copyDevices true 0 report.playback) else none),
       some (if 0 < cc then some (copyDevices false 0 report.capture) else none),
       some pc, some cc,
       (if 0 < pc then 1 else 0) + (if 0 < cc then 1 else 0)
         + nestedAllocCount report.playback + nestedAllocCount report.capture,
       0⟩

/-- sf_free (library.cpp lines 12-14) is ma_free of the single block the
pointer heads: one call releases exactly one live allocation, and a null
pointer is a no-op.  Modelled on the live-allocation counter. -/
def sf_free (live : Nat) (isNull : Bool) : Nat :=
  if isNull then live else live - 1

/-- Live allocations of one sf_get_devices call after the caller performs
the single prescribed release on each returned outer array (a nullptr
outer array being a no-op free). -/
def liveAfterOuterRelease (o : GetDevicesOutcome) : Nat :=
  let afterPlayback :=
    match o.playbackOut with
    | some (some _) => sf_free o.liveAllocs false
    | some none => sf_free o.liveAllocs true
    | none => o.liveAllocs
  match o.captureOut with
  | some (some _) => sf_free afterPlayback false
  | some none => sf_free afterPlayback true
  | none => afterPlayback

/-- ma_device_type values accepted by sf_allocate_device_config. -/
inductive MaDeviceType where
  | playback
  | capture
  | duplex
  | loopback
  deriving DecidableEq, Repr

/-- ma_share_mode: shared (the zero value) or exclusive. -/
inductive MaShareMode where
  | shared
  | exclusive
  deriving DecidableEq, Repr

/-- ma_performance_profile: low latency (the zero value) or conservative. -/
inductive MaPerformanceProfile where
  | lowLatency
  | conservative
  deriving DecidableEq, Repr

/-- The per-direction playback/capture sub-config of ma_device_config.
Device-id pointers and the data callback are abstracted to Option Nat
handles (none = nullptr). -/
structure MaDeviceSubConfig where
  format : Nat
  channels : Nat
  shareMode : MaShareMode
  pDeviceID : Option Nat
  deriving DecidableEq, Repr

/-- The wasapi sub-config field touched by the facade. -/
structure MaWasapiConfig where
  noAutoConvertSRC : Bool
  deriving DecidableEq, Repr

/-- The fields of ma_device_config that the facade reads or writes. -/
structure MaDeviceConfig where
  deviceType : MaDeviceType
  sampleRate : Nat
  dataCallback : Option Nat
  playback : MaDeviceSubConfig
  capture : MaDeviceSubConfig
  performanceProfile : MaPerformanceProfile
  wasapi : MaWasapiConfig
  deriving DecidableEq, Repr

/-- The engine's ma_device_config_init, modelled from its documented
contract (the engine source is a submodule not vendored here): it
zero-initializes the whole config and records the device type, so every
enum field holds its zero value (shared share mode, low-latency
profile) and every pointer is null. -/
def ma_device_config_init (deviceType : MaDeviceType) : MaDeviceConfig :=
  ⟨deviceType, 0, none, ⟨0, 0, MaShareMode.shared, none⟩,
   ⟨0, 0, MaShareMode.shared, none⟩, MaPerformanceProfile.lowLatency, ⟨false⟩⟩

/-- sf_allocate_device_config (library.cpp lines 37-70).  allocOk is the
success of the single ma_malloc; garbage is the indeterminate content of
the fresh block, which the code zeroes (MA_ZERO_OBJECT) and then
overwrites wholesale with ma_device_config_init before setting the
facade's fields, so it cannot reach the result. -/
def sf_allocate_device_config (allocOk : Bool) (garbage : MaDeviceConfig)
    (deviceType : MaDeviceType) (format channels sampleRate : Nat)
    (dataCallback : Option Nat) (playbackDeviceId captureDeviceId : Option Nat) :
    Option MaDeviceConfig :=
  if allocOk = false then none
  else
    let config := garbage
    let config := ma_device_config_init deviceType
    some { config with
      dataCallback := dataCallback
      sampleRate := sampleRate
      playback := { config.playback with
        format := format, channels := channels, pDeviceID := playbackDeviceId }
      capture := { config.capture with
        format := format, channels := channels,
        shareMode := MaShareMode.shared, pDeviceID := captureDeviceId }
      performanceProfile := MaPerformanceProfile.lowLatency
      wasapi := ⟨true⟩ }

/-- The fields of ma_decoder_config that the facade's initializer sets. -/
structure MaDecoderConfig where
  format : Nat
  channels : Nat
  sampleRate : Nat
  deriving DecidableEq, Repr

/-- The engine's ma_decoder_config_init, modelled from its documented
contract: a zeroed config carrying the requested output format, channel
count and sample rate. -/
def ma_decoder_config_init (outputFormat outputChannels outputSampleRate : Nat) :
    MaDecoderConfig :=
  ⟨outputFormat, outputChannels, outputSampleRate⟩

/-- sf_allocate_decoder_config (library.cpp lines 72-84): null on
allocation failure, otherwise the block is zeroed and overwritten with
the ma_decoder_config_init value. -/
def sf_allocate_decoder_config (allocOk : Bool) (garbage : MaDecoderConfig)
    (outputFormat outputChannels outputSampleRate : Nat) : Option MaDecoderConfig :=
  if allocOk = false then none
  else
    let pConfig := garbage
    let pConfig := ma_decoder_config_init outputFormat outputChannels outputSampleRate
    some pConfig

/-- The fields of ma_encoder_config that the facade's initializer sets. -/
structure MaEncoderConfig where
  encodingFormat : Nat
  format : Nat
  channels : Nat
  sampleRate : Nat
  deriving DecidableEq, Repr

/-- The engine's ma_encoder_config_init, modelled from its documented
contract: a zeroed config carrying the requested encoding format, sample
format, channel count and sample rate. -/
def ma_encoder_config_init (encodingFormat format channels sampleRate : Nat) :
    MaEncoderConfig :=
  ⟨encodingFormat, format, channels, sampleRate⟩

/-- sf_allocate_encoder_config (library.cpp lines 86-98): null on
allocation failure, otherwise the block is zeroed and overwritten with
the ma_encoder_config_init value. -/
def sf_allocate_encoder_config (allocOk : Bool) (garbage : MaEncoderConfig)
    (encodingFormat format channels sampleRate : Nat) : Option MaEncoderConfig :=
  if allocOk = false then none
  else
    let pConfig := garbage
    let pConfig := ma_encoder_config_init encodingFormat format channels sampleRate
    some pConfig

/-- Modelled from the spec: the decoder state visible to the seek
operations of §4.3 (current frame cursor in output-rate frames, total
frame count when known, output sample rate).  The facade's seek
operations belong to a source variant that is not vendored under src/. -/
structure Decoder where
  cursor : Nat
  totalFrames : Option Nat
  outputSampleRate : Nat
  deriving DecidableEq, Repr

/-- Bounds check of seekToFrame against a possibly unknown total. -/
def withinTotal (d : Decoder) (index : Nat) : Bool :=
  match d.totalFrames with
  | some total => index ≤ total
  | none => true

/-- Modelled from the spec: seekToFrame(index) sets the cursor to index
in output-rate frames, fails with OutOfRange if index > totalFrames
(when known), and leaves the cursor unchanged on failure (§4.3). -/
def decoderSeekToFrame (d : Decoder) (index : Nat) : MaResult × Decoder :=
  if withinTotal d index then (MaResult.success, { d with cursor := index })
  else (MaResult.outOfRange, d)

/-- Modelled from the spec: seekToTime(seconds) translates to
round(seconds × outputSampleRate) and invokes seekToFrame, failing with
InvalidArgs on negative input (§4.3, scenario S6).  Seconds are modelled
as rationals. -/
def decoderSeekToTime (d : Decoder) (seconds : ℚ) : MaResult × Decoder :=
  if seconds < 0 then (MaResult.invalidArgs, d)
  else decoderSeekToFrame d (round (seconds * (d.outputSampleRate : ℚ))).toNat

theorem strncpyBytes_length (src : List Nat) (n : Nat) :
    (strncpyBytes src n).length = n := by
  simp [strncpyBytes]
  omega

theorem copyName_length (src : List Nat) : (copyName src).length = 256 := by
  simp [copyName, strncpyBytes_length, MA_MAX_DEVICE_NAME_LENGTH]

theorem copyName_getElem_255 (src : List Nat) : (copyName src)[255]? = some 0 := by
  rw [copyName, List.getElem?_append_right (by rw [strncpyBytes_length]; rfl)]
  simp [strncpyBytes_length, MA_MAX_DEVICE_NAME_LENGTH]

theorem takeWhile_append_all {p : Nat → Bool} {l1 l2 : List Nat}
    (h : ∀ x ∈ l1, p x = true) :
    (l1 ++ l2).takeWhile p = l1 ++ l2.takeWhile p := by
  induction l1 with
  | nil => simp
  | cons a t ih =>
    have ha := h a (by simp)
    simp only [List.cons_append, List.takeWhile_cons, ha, if_true, ite_true,
      List.cons.injEq, true_and]
    exact ih (fun x hx => h x (by simp [hx]))

theorem takeWhile_zero_pad (k : Nat) :
    (List.replicate k 0 ++ [0]).takeWhile (fun b : Nat => b != 0) = [] := by
  cases k with
  | zero => simp [List.takeWhile]
  | succ j => simp [List.replicate, List.takeWhile]

theorem cstring_copyName (src : List Nat) (h : ∀ b ∈ src, b ≠ 0) :
    cstring (copyName src) = src.take 255 := by
  have hall : ∀ x ∈ src.take 255, (fun b : Nat => b != 0) x = true := by
    intro x hx
    simpa [bne_iff_ne] using h x (List.take_subset _ _ hx)
  rw [cstring, copyName, strncpyBytes, MA_MAX_DEVICE_NAME_LENGTH, List.append_assoc,
      takeWhile_append_all hall, takeWhile_zero_pad, List.append_nil]

theorem copyDevices_getElem (b : Bool) (s : Nat) (l : List MaDeviceInfo) (i : Nat) :
    (copyDevices b s l)[i]? = (l[i]?).map (copyDeviceInfo b (s + i)) := by
  induction l generalizing s i with
  | nil => simp [copyDevices]
  | cons d rest ih =>
    cases i with
    | zero => simp [copyDevices]
    | succ j =>
      have hidx : s + (j + 1) = (s + 1) + j := by omega
      simp [copyDevices, ih (s + 1) j, hidx]

theorem mem_copyDevices (b : Bool) (s : Nat) (l : List MaDeviceInfo) (e : SfDeviceInfo)
    (h : e ∈ copyDevices b s l) :
    ∃ d ∈ l, ∃ i, e = copyDeviceInfo b i d := by
  induction l generalizing s with
  | nil => simp [copyDevices] at h
  | cons d rest ih =>
    simp only [copyDevices, List.mem_cons] at h
    rcases h with h | h
    · exact ⟨d, by simp, s, h⟩
    · obtain ⟨d2, hd2, i, he⟩ := ih (s + 1) h
      exact ⟨d2, by simp [hd2], i, he⟩

theorem copyDeviceInfo_faithful (b : Bool) (i : Nat) (d : MaDeviceInfo) :
    (d.name.length ≤ 255 → (∀ byte ∈ d.name, byte ≠ 0) →
      cstring (copyDeviceInfo b i d).name = d.name) ∧
    (copyDeviceInfo b i d).isDefault = d.isDefault ∧
    (copyDeviceInfo b i d).nativeDataFormatCount = d.nativeDataFormats.length ∧
    ∀ (j : Nat) (f : NativeDataFormat), d.nativeDataFormats[j]? = some f →
      ∃ fmts : List NativeDataFormat,
        (copyDeviceInfo b i d).nativeDataFormats = some fmts ∧ fmts[j]? = some f := by
  refine ⟨?_, rfl, rfl, ?_⟩
  · intro hlen hnz
    show cstring (copyName d.name) = d.name
    rw [cstring_copyName d.name hnz, List.take_of_length_le (by omega)]
  · intro j f hj
    have hlt : j < d.nativeDataFormats.length := by
      by_contra hge
      rw [List.getElem?_eq_none (by omega)] at hj
      exact Option.noConfusion hj
    refine ⟨d.nativeDataFormats, ?_, hj⟩
    show (if 0 < d.nativeDataFormats.length then some d.nativeDataFormats else none) = _
    rw [if_pos (by omega)]

theorem sf_get_devices_success_shape (ctx : MaContext) (report : BackendReport)
    (oracle : AllocOracle)
    (hres : report.result = MaResult.success)
    (hpb : oracle.playbackOuterOk = true) (hcap : oracle.captureOuterOk = true)
    (hne : ¬ (report.playback.length = 0 ∧ report.capture.length = 0)) :
    sf_get_devices ctx report oracle =
      ⟨⟨report.playback, report.capture⟩, MaResult.success,
       some (if 0 < report.playback.length
         then some (copyDevices true 0 report.playback) else none),
       some (if 0 < report.capture.length
         then some (copyDevices false 0 report.capture) else none),
       some report.playback.length, some report.capture.length,
       (if 0 < report.playback.length then 1 else 0)
         + (if 0 < report.capture.length then 1 else 0)
         + nestedAllocCount report.playback + nestedAllocCount report.capture, 0⟩ := by
  simp [sf_get_devices, hres, hpb, hcap, hne]
  intro h1 h2
  exact hne ⟨by simp [h1], by simp [h2]⟩

theorem sf_get_devices_playbackOut_shape (ctx : MaContext) (report : BackendReport)
    (oracle : AllocOracle) (l : List SfDeviceInfo)
    (h : (sf_get_devices ctx report oracle).playbackOut = some (some l)) :
    l = copyDevices true 0 report.playback := by
  simp only [sf_get_devices] at h
  split at h
  · exact Option.noConfusion h
  · split at h
    · exact Option.noConfusion h
    · split at h
      · exact Option.noConfusion h
      · split at h
        · exact Option.noConfusion h
        · dsimp only at h
          rw [Option.some.injEq] at h
          split at h
          · exact (Option.some.inj h).symm
          · exact Option.noConfusion h

theorem sf_get_devices_captureOut_shape (ctx : MaContext) (report : BackendReport)
    (oracle : AllocOracle) (l : List SfDeviceInfo)
    (h : (sf_get_devices ctx report oracle).captureOut = some (some l)) :
    l = copyDevices false 0 report.capture := by
  simp only [sf_get_devices] at h
  split at h
  · exact Option.noConfusion h
  · split at h
    · exact Option.noConfusion h
    · split at h
      · exact Option.noConfusion h
      · split at h
        · exact Option.noConfusion h
        · dsimp only at h
          rw [Option.some.injEq] at h
          split at h
          · exact (Option.some.inj h).symm
          · exact Option.noConfusion h

/-- C1: on every successful sf_get_devices call, each returned playback
and capture entry is a faithful copy of the corresponding backend
device description: the name read from its buffer equals the backend
name (which the engine bounds by 255 bytes of non-NUL content), the
isDefault flag and nativeDataFormatCount equal the backend values, and
each nativeDataFormats entry below that count equals the backend's
entry (format, channels, sampleRate and flags alike). -/
theorem C1_get_devices_faithful_copy (ctx : MaContext) (report : BackendReport)
    (oracle : AllocOracle)
    (hres : report.result = MaResult.success)
    (hpb : oracle.playbackOuterOk = true) (hcap : oracle.captureOuterOk = true) :
    (∀ (i : Nat) (d : MaDeviceInfo), report.playback[i]? = some d →
      ∃ infos : List SfDeviceInfo,
        (sf_get_devices ctx report oracle).playbackOut = some (some infos) ∧
        ∃ e : SfDeviceInfo, infos[i]? = some e ∧
          (d.name.length ≤ 255 → (∀ byte ∈ d.name, byte ≠ 0) →
            cstring e.name = d.name) ∧
          e.isDefault = d.isDefault ∧
          e.nativeDataFormatCount = d.nativeDataFormats.length ∧
          ∀ (j : Nat) (f : NativeDataFormat), d.nativeDataFormats[j]? = some f →
            ∃ fmts : List NativeDataFormat,
              e.nativeDataFormats = some fmts ∧ fmts[j]? = some f) ∧
    (∀ (i : Nat) (d : MaDeviceInfo), report.capture[i]? = some d →
      ∃ infos : List SfDeviceInfo,
        (sf_get_devices ctx report oracle).captureOut = some (some infos) ∧
        ∃ e : SfDeviceInfo, infos[i]? = some e ∧
          (d.name.length ≤ 255 → (∀ byte ∈ d.name, byte ≠ 0) →
            cstring e.name = d.name) ∧
          e.isDefault = d.isDefault ∧
          e.nativeDataFormatCount = d.nativeDataFormats.length ∧
          ∀ (j : Nat) (f : NativeDataFormat), d.nativeDataFormats[j]? = some f →
            ∃ fmts : List NativeDataFormat,
              e.nativeDataFormats = some fmts ∧ fmts[j]? = some f) := by
  constructor
  · intro i d hd
    have hi : i < report.playback.length := by
      by_contra hge
      rw [List.getElem?_eq_none (by omega)] at hd
      exact Option.noConfusion hd
    have hne : ¬ (report.playback.length = 0 ∧ report.capture.length = 0) :=
      fun hz => by omega
    rw [sf_get_devices_success_shape ctx report oracle hres hpb hcap hne]
    refine ⟨copyDevices true 0 report.playback, ?_, copyDeviceInfo true i d, ?_,
      (copyDeviceInfo_faithful true i d).1, (copyDeviceInfo_faithful true i d).2.1,
      (copyDeviceInfo_faithful true i d).2.2.1, (copyDeviceInfo_faithful true i d).2.2.2⟩
    · show some (if 0 < report.playback.length
          then some (copyDevices true 0 report.playback) else none)
        = some (some (copyDevices true 0 report.playback))
      rw [if_pos (by omega)]
    · rw [copyDevices_getElem, hd]
      simp
  · intro i d hd
    have hi : i < report.capture.length := by
      by_contra hge
      rw [List.getElem?_eq_none (by omega)] at hd
      exact Option.noConfusion hd
    have hne : ¬ (report.playback.length = 0 ∧ report.capture.length = 0) :=
      fun hz => by omega
    rw [sf_get_devices_success_shape ctx report oracle hres hpb hcap hne]
    refine ⟨copyDevices false 0 report.capture, ?_, copyDeviceInfo false i d, ?_,
      (copyDeviceInfo_faithful false i d).1, (copyDeviceInfo_faithful false i d).2.1,
      (copyDeviceInfo_faithful false i d).2.2.1, (copyDeviceInfo_faithful false i d).2.2.2⟩
    · show some (if 0 < report.capture.length
          then some (copyDevices false 0 report.capture) else none)
        = some (some (copyDevices false 0 report.capture))
      rw [if_pos (by omega)]
    · rw [copyDevices_getElem, hd]
      simp

/-- Witness for C1: a concrete enumeration with one playback device
(name "AB", default, one native format) and one capture device. -/
theorem C1_get_devices_faithful_copy_witness :
    (∃ infos : List SfDeviceInfo, (sf_get_devices ⟨[], []⟩
        ⟨MaResult.success, [⟨7, [65, 66], true, [⟨1, 2, 48000, 4⟩]⟩],
         [⟨8, [67], false, []⟩]⟩ ⟨true, true⟩).playbackOut = some (some infos) ∧
      ∃ e : SfDeviceInfo, infos[0]? = some e ∧
        cstring e.name = [65, 66] ∧ e.isDefault = true ∧
        e.nativeDataFormatCount = 1 ∧
        ∃ fmts : List NativeDataFormat,
          e.nativeDataFormats = some fmts ∧ fmts[0]? = some ⟨1, 2, 48000, 4⟩) ∧
    (∃ infos : List SfDeviceInfo, (sf_get_devices ⟨[], []⟩
        ⟨MaResult.success, [⟨7, [65, 66], true, [⟨1, 2, 48000, 4⟩]⟩],
         [⟨8, [67], false, []⟩]⟩ ⟨true, true⟩).captureOut = some (some infos) ∧
      ∃ e : SfDeviceInfo, infos[0]? = some e ∧ cstring e.name = [67] ∧
        e.isDefault = false ∧ e.nativeDataFormatCount = 0) := by
  have h := C1_get_devices_faithful_copy ⟨[], []⟩
    ⟨MaResult.success, [⟨7, [65, 66], true, [⟨1, 2, 48000, 4⟩]⟩], [⟨8, [67], false, []⟩]⟩
    ⟨true, true⟩ rfl rfl rfl
  obtain ⟨infos, hout, e, he, hname, hdef, hcount, hfmt⟩ :=
    h.1 0 ⟨7, [65, 66], true, [⟨1, 2, 48000, 4⟩]⟩ rfl
  obtain ⟨infos2, hout2, e2, he2, hname2, hdef2, hcount2, _⟩ :=
    h.2 0 ⟨8, [67], false, []⟩ rfl
  exact ⟨⟨infos, hout, e, he, hname (by decide) (by decide), hdef, hcount,
          hfmt 0 ⟨1, 2, 48000, 4⟩ rfl⟩,
         ⟨infos2, hout2, e2, he2, hname2 (by decide) (by decide), hdef2, hcount2⟩⟩

/-- C4: every successful sf_allocate_device_config call returns a config
whose sample rate equals the supplied sampleRate, whose playback and
capture formats equal the supplied format, whose playback and capture
channel counts equal the supplied channels, whose data callback equals
the supplied callback, and whose playback and capture device IDs equal
the supplied IDs. -/
theorem C4_allocate_device_config_fields (allocOk : Bool) (garbage : MaDeviceConfig)
    (deviceType : MaDeviceType) (format channels sampleRate : Nat)
    (dataCallback playbackDeviceId captureDeviceId : Option Nat)
    (h : allocOk = true) :
    ∃ cfg, sf_allocate_device_config allocOk garbage deviceType format channels sampleRate
        dataCallback playbackDeviceId captureDeviceId = some cfg ∧
      cfg.sampleRate = sampleRate ∧
      cfg.playback.format = format ∧ cfg.capture.format = format ∧
      cfg.playback.channels = channels ∧ cfg.capture.channels = channels ∧
      cfg.dataCallback = dataCallback ∧
      cfg.playback.pDeviceID = playbackDeviceId ∧
      cfg.capture.pDeviceID = captureDeviceId := by
  subst h
  exact ⟨_, rfl, rfl, rfl, rfl, rfl, rfl, rfl, rfl, rfl⟩

/-- Witness for C4 at a concrete input. -/
theorem C4_allocate_device_config_fields_witness :
    ∃ cfg, sf_allocate_device_config true (ma_device_config_init MaDeviceType.playback)
        MaDeviceType.duplex 5 2 48000 (some 1) (some 7) (some 9) = some cfg ∧
      cfg.sampleRate = 48000 ∧
      cfg.playback.format = 5 ∧ cfg.capture.format = 5 ∧
      cfg.playback.channels = 2 ∧ cfg.capture.channels = 2 ∧
      cfg.dataCallback = some 1 ∧
      cfg.playback.pDeviceID = some 7 ∧
      cfg.capture.pDeviceID = some 9 :=
  C4_allocate_device_config_fields true (ma_device_config_init MaDeviceType.playback)
    MaDeviceType.duplex 5 2 48000 (some 1) (some 7) (some 9) rfl

/-- C5 counterexample: no caller input to sf_allocate_device_config can
produce a config with the conservative performance profile, an exclusive
share mode, or noAutoConvertSRC disabled; these are hardcoded by the
facade (library.cpp lines 59 and 66-67), not caller-selectable. -/
theorem C5_profile_share_mode_not_selectable :
    ¬ ∃ (allocOk : Bool) (garbage : MaDeviceConfig) (deviceType : MaDeviceType)
        (format : Nat) (channels : Nat) (sampleRate : Nat)
        (dataCallback : Option Nat) (playbackDeviceId : Option Nat)
        (captureDeviceId : Option Nat) (cfg : MaDeviceConfig),
      sf_allocate_device_config allocOk garbage deviceType format channels sampleRate
          dataCallback playbackDeviceId captureDeviceId = some cfg ∧
        (cfg.performanceProfile = MaPerformanceProfile.conservative ∨
         cfg.capture.shareMode = MaShareMode.exclusive ∨
         cfg.playback.shareMode = MaShareMode.exclusive ∨
         cfg.wasapi.noAutoConvertSRC = false) := by
  rintro ⟨ok, g, dt, f, c, sr, cb, p, q, cfg, hcfg, hbad⟩
  cases ok with
  | false => simp [sf_allocate_device_config] at hcfg
  | true =>
    simp only [sf_allocate_device_config, Bool.true_eq_false, if_false, ite_false,
      Option.some.injEq] at hcfg
    subst hcfg
    rcases hbad with h | h | h | h <;> simp [ma_device_config_init] at h

/-- C5 amended: for every successful sf_allocate_device_config call the
performance profile is unconditionally low-latency, both share modes are
unconditionally shared, and wasapi.noAutoConvertSRC is unconditionally
true, independent of caller input. -/
theorem C5_amended_fixed_profile_share_mode (garbage : MaDeviceConfig)
    (deviceType : MaDeviceType) (format channels sampleRate : Nat)
    (dataCallback playbackDeviceId captureDeviceId : Option Nat) :
    ∃ cfg, sf_allocate_device_config true garbage deviceType format channels sampleRate
        dataCallback playbackDeviceId captureDeviceId = some cfg ∧
      cfg.performanceProfile = MaPerformanceProfile.lowLatency ∧
      cfg.playback.shareMode = MaShareMode.shared ∧
      cfg.capture.shareMode = MaShareMode.shared ∧
      cfg.wasapi.noAutoConvertSRC = true :=
  ⟨_, rfl, rfl, rfl, rfl, rfl⟩

/-- C8: decoderSeekToTime translates a non-negative seconds value to
round(seconds × outputSampleRate) and invokes seekToFrame there, so the
cursor lands on that frame whenever it is within the known total; a
negative seconds value yields InvalidArgs with the decoder unchanged. -/
theorem C8_seek_to_time (d : Decoder) (seconds : ℚ) :
    (0 ≤ seconds →
      decoderSeekToTime d seconds
        = decoderSeekToFrame d (round (seconds * (d.outputSampleRate : ℚ))).toNat ∧
      (withinTotal d (round (seconds * (d.outputSampleRate : ℚ))).toNat = true →
        (decoderSeekToTime d seconds).1 = MaResult.success ∧
        (decoderSeekToTime d seconds).2.cursor
          = (round (seconds * (d.outputSampleRate : ℚ))).toNat)) ∧
    (seconds < 0 → decoderSeekToTime d seconds = (MaResult.invalidArgs, d)) := by
  constructor
  · intro h0
    have hnn : ¬ seconds < 0 := not_lt.mpr h0
    refine ⟨by simp [decoderSeekToTime, hnn], ?_⟩
    intro hw
    simp [decoderSeekToTime, decoderSeekToFrame, hnn, hw]
  · intro hneg
    simp [decoderSeekToTime, hneg]

/-- Witness for C8: seeking to 0 s resets a decoder cursor sitting at
frame 5 to frame 0 with success, and seeking to -1 s fails with
InvalidArgs leaving the decoder unchanged. -/
theorem C8_seek_to_time_witness :
    (decoderSeekToTime ⟨5, some 100000, 48000⟩ 0).1 = MaResult.success ∧
    (decoderSeekToTime ⟨5, some 100000, 48000⟩ 0).2.cursor = 0 ∧
    decoderSeekToTime ⟨5, some 100000, 48000⟩ (-1)
      = (MaResult.invalidArgs, ⟨5, some 100000, 48000⟩) := by
  have h := C8_seek_to_time ⟨5, some 100000, 48000⟩ 0
  have hround : (round ((0 : ℚ) * ((48000 : Nat) : ℚ))).toNat = 0 := by simp
  have h2 := (h.1 (le_refl 0)).2 (by rw [hround]; rfl)
  refine ⟨h2.1, ?_, ?_⟩
  · rw [h2.2, hround]
  · exact (C8_seek_to_time ⟨5, some 100000, 48000⟩ (-1)).2 neg_one_lt_zero

/-- C9: when the backend succeeds with zero playback and zero capture
devices, sf_get_devices returns the backend success code at once and
writes neither output array pointer. -/
theorem C9_zero_devices_no_write (ctx : MaContext) (oracle : AllocOracle) :
    sf_get_devices ctx ⟨MaResult.success, [], []⟩ oracle
      = ⟨⟨[], []⟩, MaResult.success, none, none, some 0, some 0, 0, 0⟩ := by
  simp [sf_get_devices]

/-- C10: each config allocator is all-or-nothing: it returns none exactly
when its single allocation fails, otherwise a config that is fully the
init routine's value (decoder and encoder) or fully determined by the
init routine and the facade's explicit field writes (device config), in
every case independent of the indeterminate content of the fresh
block. -/
theorem C10_config_allocators_all_or_nothing
    (g1 g2 : MaDeviceConfig) (gd1 gd2 : MaDecoderConfig) (ge1 ge2 : MaEncoderConfig)
    (deviceType : MaDeviceType) (format channels sampleRate : Nat)
    (dataCallback playbackDeviceId captureDeviceId : Option Nat)
    (outputFormat outputChannels outputSampleRate : Nat)
    (encodingFormat eFormat eChannels eSampleRate : Nat) :
    sf_allocate_device_config false g1 deviceType format channels sampleRate
        dataCallback playbackDeviceId captureDeviceId = none ∧
    sf_allocate_device_config true g1 deviceType format channels sampleRate
        dataCallback playbackDeviceId captureDeviceId
      = sf_allocate_device_config true g2 deviceType format channels sampleRate
          dataCallback playbackDeviceId captureDeviceId ∧
    (∃ cfg, sf_allocate_device_config true g1 deviceType format channels sampleRate
        dataCallback playbackDeviceId captureDeviceId = some cfg ∧
      cfg.deviceType = (ma_device_config_init deviceType).deviceType) ∧
    sf_allocate_decoder_config false gd1 outputFormat outputChannels outputSampleRate
      = none ∧
    sf_allocate_decoder_config true gd1 outputFormat outputChannels outputSampleRate
      = some (ma_decoder_config_init outputFormat outputChannels outputSampleRate) ∧
    sf_allocate_decoder_config true gd1 outputFormat outputChannels outputSampleRate
      = sf_allocate_decoder_config true gd2 outputFormat outputChannels outputSampleRate ∧
    sf_allocate_encoder_config false ge1 encodingFormat eFormat eChannels eSampleRate
      = none ∧
    sf_allocate_encoder_config true ge1 encodingFormat eFormat eChannels eSampleRate
      = some (ma_encoder_config_init encodingFormat eFormat eChannels eSampleRate) ∧
    sf_allocate_encoder_config true ge1 encodingFormat eFormat eChannels eSampleRate
      = sf_allocate_encoder_config true ge2 encodingFormat eFormat eChannels eSampleRate :=
  ⟨rfl, rfl, ⟨_, rfl, rfl⟩, rfl, rfl, rfl, rfl, rfl, rfl⟩

/-- C6: sf_get_devices reports failures as result values and is atomic on
error: a backend enumeration failure is returned verbatim with no write
to the output array pointers; an allocation failure of either outer
snapshot array returns OutOfMemory, releases every snapshot allocation
already made in that call, and writes no output array pointer. -/
theorem C6_get_devices_error_atomicity (ctx : MaContext) (report : BackendReport)
    (oracle : AllocOracle) :
    (report.result ≠ MaResult.success →
      sf_get_devices ctx report oracle
        = ⟨ctx, report.result, none, none, none, none, 0, 0⟩) ∧
    (report.result = MaResult.success → 0 < report.playback.length →
      oracle.playbackOuterOk = false →
      (sf_get_devices ctx report oracle).result = MaResult.outOfMemory ∧
      (sf_get_devices ctx report oracle).playbackOut = none ∧
      (sf_get_devices ctx report oracle).captureOut = none ∧
      (sf_get_devices ctx report oracle).liveAllocs = 0) ∧
    (report.result = MaResult.success → 0 < report.capture.length →
      (report.playback.length = 0 ∨ oracle.playbackOuterOk = true) →
      oracle.captureOuterOk = false →
      (sf_get_devices ctx report oracle).result = MaResult.outOfMemory ∧
      (sf_get_devices ctx report oracle).playbackOut = none ∧
      (sf_get_devices ctx report oracle).captureOut = none ∧
      (sf_get_devices ctx report oracle).liveAllocs = 0) := by
  refine ⟨?_, ?_, ?_⟩
  · intro h
    simp [sf_get_devices, h]
  · intro hres hpc hfail
    have h1 : ¬ (report.playback = [] ∧ report.capture = []) := by
      intro hz
      rw [hz.1] at hpc
      exact Nat.lt_irrefl 0 hpc
    simp [sf_get_devices, hres, h1, hpc, hfail]
  · intro hres hcc hok hfail
    have h1 : ¬ (report.playback = [] ∧ report.capture = []) := by
      intro hz
      rw [hz.2] at hcc
      exact Nat.lt_irrefl 0 hcc
    have h2 : ¬ (0 < report.playback.length ∧ oracle.playbackOuterOk = false) := by
      rcases hok with h | h
      · intro hx
        omega
      · intro hx
        rw [h] at hx
        exact Bool.noConfusion hx.2
    simp [sf_get_devices, hres, h1, h2, hcc, hfail]

/-- Witness for C6 at concrete inputs: a backend error code is returned
untouched with no writes; a playback outer-array allocation failure and
a capture outer-array allocation failure each yield OutOfMemory with no
writes and zero live snapshot allocations. -/
theorem C6_get_devices_error_atomicity_witness :
    sf_get_devices ⟨[], []⟩ ⟨MaResult.errorCode (-9), [⟨7, [65], true, []⟩], []⟩ ⟨true, true⟩
      = ⟨⟨[], []⟩, MaResult.errorCode (-9), none, none, none, none, 0, 0⟩ ∧
    ((sf_get_devices ⟨[], []⟩ ⟨MaResult.success, [⟨7, [65], true, []⟩], []⟩
        ⟨false, true⟩).result = MaResult.outOfMemory ∧
      (sf_get_devices ⟨[], []⟩ ⟨MaResult.success, [⟨7, [65], true, []⟩], []⟩
        ⟨false, true⟩).playbackOut = none ∧
      (sf_get_devices ⟨[], []⟩ ⟨MaResult.success, [⟨7, [65], true, []⟩], []⟩
        ⟨false, true⟩).captureOut = none ∧
      (sf_get_devices ⟨[], []⟩ ⟨MaResult.success, [⟨7, [65], true, []⟩], []⟩
        ⟨false, true⟩).liveAllocs = 0) ∧
    ((sf_get_devices ⟨[], []⟩ ⟨MaResult.success, [⟨7, [65], true, []⟩],
        [⟨8, [66], false, []⟩]⟩ ⟨true, false⟩).result = MaResult.outOfMemory ∧
      (sf_get_devices ⟨[], []⟩ ⟨MaResult.success, [⟨7, [65], true, []⟩],
        [⟨8, [66], false, []⟩]⟩ ⟨true, false⟩).playbackOut = none ∧
      (sf_get_devices ⟨[], []⟩ ⟨MaResult.success, [⟨7, [65], true, []⟩],
        [⟨8, [66], false, []⟩]⟩ ⟨true, false⟩).captureOut = none ∧
      (sf_get_devices ⟨[], []⟩ ⟨MaResult.success, [⟨7, [65], true, []⟩],
        [⟨8, [66], false, []⟩]⟩ ⟨true, false⟩).liveAllocs = 0) :=
  ⟨(C6_get_devices_error_atomicity ⟨[], []⟩
      ⟨MaResult.errorCode (-9), [⟨7, [65], true, []⟩], []⟩ ⟨true, true⟩).1 (by decide),
   (C6_get_devices_error_atomicity ⟨[], []⟩
      ⟨MaResult.success, [⟨7, [65], true, []⟩], []⟩ ⟨false, true⟩).2.1
     rfl (by decide) rfl,
   (C6_get_devices_error_atomicity ⟨[], []⟩
      ⟨MaResult.success, [⟨7, [65], true, []⟩], [⟨8, [66], false, []⟩]⟩ ⟨true, false⟩).2.2
     rfl (by decide) (Or.inr rfl) rfl⟩

/-- Membership in one of the arrays written by one sf_get_devices call. -/
def returnedEntry (o : GetDevicesOutcome) (e : SfDeviceInfo) : Prop :=
  (∃ l : List SfDeviceInfo, o.playbackOut = some (some l) ∧ e ∈ l) ∨
  (∃ l : List SfDeviceInfo, o.captureOut = some (some l) ∧ e ∈ l)

/-- C7: every device entry returned by sf_get_devices carries a 256-byte
name buffer whose byte at index 255 is NUL — so the name occupies at
most 255 bytes plus a terminator and reading it stops inside the
buffer — and the buffer holds exactly some backend device name of the
enumeration truncated to 255 bytes. -/
theorem C7_name_bounded_terminated (ctx : MaContext) (report : BackendReport)
    (oracle : AllocOracle) (e : SfDeviceInfo)
    (h : returnedEntry (sf_get_devices ctx report oracle) e) :
    e.name.length = 256 ∧ e.name[255]? = some 0 ∧
    ∃ d : MaDeviceInfo, (d ∈ report.playback ∨ d ∈ report.capture) ∧
      e.name = copyName d.name ∧
      ((∀ byte ∈ d.name, byte ≠ 0) → cstring e.name = d.name.take 255) := by
  have hsrc : ∃ d : MaDeviceInfo, (d ∈ report.playback ∨ d ∈ report.capture) ∧
      e.name = copyName d.name := by
    rcases h with ⟨l, hout, hmem⟩ | ⟨l, hout, hmem⟩
    · rcases mem_copyDevices true 0 report.playback e
        (by rw [← sf_get_devices_playbackOut_shape ctx report oracle l hout]; exact hmem)
        with ⟨d, hd, i, he⟩
      exact ⟨d, Or.inl hd, by rw [he]; rfl⟩
    · rcases mem_copyDevices false 0 report.capture e
        (by rw [← sf_get_devices_captureOut_shape ctx report oracle l hout]; exact hmem)
        with ⟨d, hd, i, he⟩
      exact ⟨d, Or.inr hd, by rw [he]; rfl⟩
  rcases hsrc with ⟨d, hmem, hname⟩
  refine ⟨by rw [hname, copyName_length],
    by rw [hname]; exact copyName_getElem_255 d.name, d, hmem, hname, ?_⟩
  intro hnz
  rw [hname, cstring_copyName d.name hnz]

set_option maxRecDepth 8192 in
/-- Witness for C7: the single playback entry of a concrete enumeration
has a 256-byte buffer, a NUL at index 255, and reads back as the backend
name "AB". -/
theorem C7_name_bounded_terminated_witness :
    (copyDeviceInfo true 0 ⟨7, [65, 66], true, []⟩).name.length = 256 ∧
    (copyDeviceInfo true 0 ⟨7, [65, 66], true, []⟩).name[255]? = some 0 ∧
    cstring (copyDeviceInfo true 0 ⟨7, [65, 66], true, []⟩).name = [65, 66] := by
  have h := C7_name_bounded_terminated ⟨[], []⟩
    ⟨MaResult.success, [⟨7, [65, 66], true, []⟩], []⟩ ⟨true, true⟩
    (copyDeviceInfo true 0 ⟨7, [65, 66], true, []⟩)
    (Or.inl ⟨copyDevices true 0 [⟨7, [65, 66], true, []⟩], rfl, by decide⟩)
  rcases h with ⟨h1, h2, d, hmem, hname, hcs⟩
  refine ⟨h1, h2, ?_⟩
  rcases hmem with hd | hd
  · have hdev := List.mem_singleton.mp hd
    subst hdev
    have hc := hcs (by decide)
    rw [hc]
    decide
  · exact absurd hd (List.not_mem_nil d)

/-- C2 (code bug): with one playback device exposing one native data
format and no capture devices, sf_get_devices leaves two of its own
allocations live (the outer snapshot array and the nested
nativeDataFormats array), and the single prescribed sf_free on each
returned outer array releases only the outer block: one allocation
stays live, so the process allocation count does not return to its
pre-enumeration baseline. -/
theorem C2_nested_formats_allocation_leaks :
    (sf_get_devices ⟨[], []⟩
        ⟨MaResult.success, [⟨7, [65], true, [⟨1, 2, 48000, 0⟩]⟩], []⟩
        ⟨true, true⟩).liveAllocs = 2 ∧
    liveAfterOuterRelease (sf_get_devices ⟨[], []⟩
        ⟨MaResult.success, [⟨7, [65], true, [⟨1, 2, 48000, 0⟩]⟩], []⟩
        ⟨true, true⟩) = 1 ∧
    liveAfterOuterRelease (sf_get_devices ⟨[], []⟩
        ⟨MaResult.success, [⟨7, [65], true, [⟨1, 2, 48000, 0⟩]⟩], []⟩
        ⟨true, true⟩) ≠ 0 := by
  decide

set_option maxRecDepth 8192 in
/-- C3 counterexample: the id stored in a returned snapshot entry points
into the context-owned backend array; invoking enumeration again on the
same context refreshes that array, and the ma_device_id value reachable
through the stored id changes (here from 7 to 9), so a field reachable
from the snapshot changes on re-enumeration. -/
theorem C3_id_points_into_refreshed_cache :
    (sf_get_devices ⟨[], []⟩ ⟨MaResult.success, [⟨7, [65], true, []⟩], []⟩
        ⟨true, true⟩).playbackOut
      = some (some (copyDevices true 0 [⟨7, [65], true, []⟩])) ∧
    ((copyDevices true 0 [⟨7, [65], true, []⟩])[0]?).map (fun e => e.id)
      = some ⟨true, 0⟩ ∧
    derefDeviceId (sf_get_devices ⟨[], []⟩
        ⟨MaResult.success, [⟨7, [65], true, []⟩], []⟩ ⟨true, true⟩).context ⟨true, 0⟩
      = some 7 ∧
    derefDeviceId (sf_get_devices
        (sf_get_devices ⟨[], []⟩ ⟨MaResult.success, [⟨7, [65], true, []⟩], []⟩
          ⟨true, true⟩).context
        ⟨MaResult.success, [⟨9, [65], true, []⟩], []⟩ ⟨true, true⟩).context ⟨true, 0⟩
      = some 9 ∧
    derefDeviceId (sf_get_devices ⟨[], []⟩
        ⟨MaResult.success, [⟨7, [65], true, []⟩], []⟩ ⟨true, true⟩).context ⟨true, 0⟩
      ≠ derefDeviceId (sf_get_devices
          (sf_get_devices ⟨[], []⟩ ⟨MaResult.success, [⟨7, [65], true, []⟩], []⟩
            ⟨true, true⟩).context
          ⟨MaResult.success, [⟨9, [65], true, []⟩], []⟩ ⟨true, true⟩).context ⟨true, 0⟩ := by
  decide

/-- C3 amended: the snapshot arrays are self-contained copies of the
enumeration report in every directly stored field (the name buffer,
isDefault, the format count, the copied format entries, and the id
pointer value): they are independent of the context state, so a later
enumeration — which only replaces the context cache — leaves every
previously returned snapshot value unchanged.  Only the backend
ma_device_id reachable by dereferencing the stored id against the
current context can differ, because a successful enumeration replaces
the cache with the fresh report. -/
theorem C3_amended_snapshot_self_contained (ctxA ctxB : MaContext)
    (report : BackendReport) (oracle : AllocOracle) :
    (sf_get_devices ctxA report oracle).playbackOut
      = (sf_get_devices ctxB report oracle).playbackOut ∧
    (sf_get_devices ctxA report oracle).captureOut
      = (sf_get_devices ctxB report oracle).captureOut ∧
    (report.result = MaResult.success →
      (sf_get_devices ctxA report oracle).context
        = ⟨report.playback, report.capture⟩) := by
  refine ⟨?_, ?_, ?_⟩
  · by_cases h1 : report.result = MaResult.success
    · by_cases h2 : report.playback = [] ∧ report.capture = []
      · simp [sf_get_devices, h1, h2]
      · by_cases h3 : 0 < report.playback.length ∧ oracle.playbackOuterOk = false
        · simp [sf_get_devices, h1, h2, h3]
        · by_cases h4 : 0 < report.capture.length ∧ oracle.captureOuterOk = false
          · simp [sf_get_devices, h1, h2, h3, h4]
          · simp [sf_get_devices, h1, h2, h3, h4]
    · simp [sf_get_devices, h1]
  · by_cases h1 : report.result = MaResult.success
    · by_cases h2 : report.playback = [] ∧ report.capture = []
      · simp [sf_get_devices, h1, h2]
      · by_cases h3 : 0 < report.playback.length ∧ oracle.playbackOuterOk = false
        · simp [sf_get_devices, h1, h2, h3]
        · by_cases h4 : 0 < report.capture.length ∧ oracle.captureOuterOk = false
          · simp [sf_get_devices, h1, h2, h3, h4]
          · simp [sf_get_devices, h1, h2, h3, h4]
    · simp [sf_get_devices, h1]
  · intro hres
    by_cases h2 : report.playback = [] ∧ report.capture = []
    · simp [sf_get_devices, hres, h2]
    · by_cases h3 : 0 < report.playback.length ∧ oracle.playbackOuterOk = false
      · simp [sf_get_devices, hres, h2, h3]
      · by_cases h4 : 0 < report.capture.length ∧ oracle.captureOuterOk = false
        · simp [sf_get_devices, hres, h2, h3, h4]
        · simp [sf_get_devices, hres, h2, h3, h4]

/-- Witness for C3 amended at a concrete input: two different prior
context states yield the same snapshot, and a successful call installs
the report as the new cache. -/
theorem C3_amended_snapshot_self_contained_witness :
    (sf_get_devices ⟨[], []⟩ ⟨MaResult.success, [⟨7, [65], true, []⟩], []⟩
        ⟨true, true⟩).playbackOut
      = (sf_get_devices ⟨[⟨0, [], false, []⟩], []⟩
          ⟨MaResult.success, [⟨7, [65], true, []⟩], []⟩ ⟨true, true⟩).playbackOut ∧
    (sf_get_devices ⟨[], []⟩ ⟨MaResult.success, [⟨7, [65], true, []⟩], []⟩
        ⟨true, true⟩).context = ⟨[⟨7, [65], true, []⟩], []⟩ := by
  have h := C3_amended_snapshot_self_contained ⟨[], []⟩ ⟨[⟨0, [], false, []⟩], []⟩
    ⟨MaResult.success, [⟨7, [65], true, []⟩], []⟩ ⟨true, true⟩
  exact ⟨h.1, h.2.2 rfl⟩

end SoundFlow
